import Mathlib

/-!
Verification development for the aviasales-scraper repository.

The embedding models the two store-writing code paths of the repository:

* `handleSearchFlights` — the `POST /api/search-flights` handler of
  `src/api/index.js`: parameter validation, GraphQL query construction,
  three-step response validation, ticket-link normalization, and the
  per-ticket check-then-insert loop wrapped in a per-record `try/catch`.
* `fetchAndStoreTickets` — the standalone fetch path of `src/dist/index.js`:
  a single combined response check with a silent early return, and the same
  check-then-insert loop but with no per-record `catch` (an error is
  rethrown, aborting the batch).

JavaScript falsiness on strings (`x || "Unknown"`, `!origin`) is modelled by
`jsStrOr` / `jsTruthy`; `parseInt(limit) || 5` is modelled by `jsParseInt` /
`jsNumOr`. The relational store is a list of `StoredTicket`; Prisma's
`findFirst` with the six-field `where` clause is `isDuplicate`, and `create`
appends. The outbound network call of the handler is modelled by the
`sentQuery` field of `ApiResult`: `none` means no upstream request was made.
-/

namespace AviasalesScraper

/-- One flight leg as requested by the GraphQL query. Any field of the
upstream JSON may be absent, hence `Option`. -/
structure FlightLeg where
  aircraft_code : Option String
  flight_number : Option String
  origin : Option String
  destination : Option String
  departure_at : Option String
  arrival_at : Option String
deriving Repr, DecidableEq

/-- One direction of travel, holding its flight legs. -/
structure Segment where
  flight_legs : List FlightLeg
deriving Repr, DecidableEq

/-- One raw round-trip ticket record as returned by the upstream API
(`prices_round_trip` element). -/
structure Ticket where
  departure_at : String
  return_at : String
  value : Int
  trip_duration : Int
  ticket_link : Option String
  segments : List Segment
deriving Repr, DecidableEq

/-- One persisted row of the `Ticket` table (prisma model), without the
auto-assigned id and creation timestamp. -/
structure StoredTicket where
  departureAt : String
  returnAt : String
  price : Int
  tripDuration : Int
  ticketLink : Option String
  origin : String
  destination : String
  outboundAirline : String
  outboundFlight : String
  returnAirline : String
  returnFlight : String
deriving Repr, DecidableEq

/-- JavaScript `x || d` for a possibly-absent string `x`: absent and the
empty string are falsy and fall through to the default. -/
def jsStrOr (o : Option String) (d : String) : String :=
  match o with
  | none => d
  | some s => if s = "" then d else s

/-- JavaScript truthiness of a possibly-absent string (`!x` is true exactly
when this is `false`). -/
def jsTruthy (o : Option String) : Bool :=
  match o with
  | none => false
  | some s => !(s == "")

/-- JavaScript `s.substring(0, n)`: the first `n` characters, or all of a
shorter string. -/
def strTake (s : String) (n : Nat) : String :=
  ⟨s.toList.take n⟩

/-- ASCII lowercasing of one character, as `toLowerCase` acts on the
characters appearing in this system's currency codes. -/
def charToLower (c : Char) : Char :=
  if 'A' ≤ c ∧ c ≤ 'Z' then Char.ofNat (c.toNat + 32) else c

/-- JavaScript `s.toLowerCase()` on ASCII strings. -/
def strToLower (s : String) : String :=
  ⟨s.toList.map charToLower⟩

/-- Does the first character list start with the second? -/
def charsStartWith : List Char → List Char → Bool
  | _, [] => true
  | [], _ :: _ => false
  | c :: cs, p :: ps => c == p && charsStartWith cs ps

/-- JavaScript `s.startsWith(p)`. -/
def strStartsWith (s p : String) : Bool :=
  charsStartWith s.toList p.toList

/-- `ticket.segments[0]?.flight_legs[0]` of the source. -/
def outboundLeg (t : Ticket) : Option FlightLeg :=
  t.segments[0]?.bind (fun s => s.flight_legs[0]?)

/-- `ticket.segments[1]?.flight_legs[0]` of the source. -/
def returnLeg (t : Ticket) : Option FlightLeg :=
  t.segments[1]?.bind (fun s => s.flight_legs[0]?)

/-- `outboundLeg?.flight_number || "Unknown"` of the source. -/
def outboundFlight (t : Ticket) : String :=
  jsStrOr ((outboundLeg t).bind FlightLeg.flight_number) "Unknown"

/-- `outboundFlight.substring(0, 2)` of the source. -/
def outboundAirline (t : Ticket) : String :=
  strTake (outboundFlight t) 2

/-- `returnLeg?.flight_number || "Unknown"` of the source. -/
def returnFlight (t : Ticket) : String :=
  jsStrOr ((returnLeg t).bind FlightLeg.flight_number) "Unknown"

/-- `returnFlight.substring(0, 2)` of the source. -/
def returnAirline (t : Ticket) : String :=
  strTake (returnFlight t) 2

/-- `outboundLeg?.origin || "Unknown"` of the source. -/
def ticketOrigin (t : Ticket) : String :=
  jsStrOr ((outboundLeg t).bind FlightLeg.origin) "Unknown"

/-- `outboundLeg?.destination || "Unknown"` of the source. -/
def ticketDestination (t : Ticket) : String :=
  jsStrOr ((outboundLeg t).bind FlightLeg.destination) "Unknown"

/-- The `where` clause of `client.ticket.findFirst` in both store-writing
paths: equality on the six fields {departureAt, returnAt, outboundFlight,
returnFlight, origin, destination}. -/
def matchesKey (st : StoredTicket) (t : Ticket) : Bool :=
  st.departureAt == t.departure_at && st.returnAt == t.return_at &&
  st.outboundFlight == outboundFlight t && st.returnFlight == returnFlight t &&
  st.origin == ticketOrigin t && st.destination == ticketDestination t

/-- `findFirst` returned a row: some stored record matches the six-field key. -/
def isDuplicate (store : List StoredTicket) (t : Ticket) : Bool :=
  store.any (fun st => matchesKey st t)

/-- The `data` object passed to `client.ticket.create` for a ticket records
all raw fields plus the derived key/airline fields. -/
def mkStored (t : Ticket) : StoredTicket :=
  { departureAt := t.departure_at
    returnAt := t.return_at
    price := t.value
    tripDuration := t.trip_duration
    ticketLink := t.ticket_link
    origin := ticketOrigin t
    destination := ticketDestination t
    outboundAirline := outboundAirline t
    outboundFlight := outboundFlight t
    returnAirline := returnAirline t
    returnFlight := returnFlight t }

/-- Per-record outcome of the store loop. -/
inductive Outcome where
  | inserted
  | duplicate
  | failed
deriving Repr, DecidableEq

/-- Result of the store loop of `src/api/index.js`: final table contents,
the two counters, and the per-record outcome trace. -/
structure StoreResult where
  store : List StoredTicket
  newCount : Nat
  dupCount : Nat
  outcomes : List Outcome
deriving Repr, DecidableEq

/-- The `for (const ticket of tickets)` loop of the search handler
(src/api/index.js lines 245-303). Each ticket carries a flag saying whether
its iteration raises an error (a DB error in `findFirst`/`create`, or an
extraction error); the per-record `try/catch` logs it and continues with
the next record, leaving store and counters unchanged for that record. -/
def processTickets (store : List StoredTicket) : List (Ticket × Bool) → StoreResult
  | [] => ⟨store, 0, 0, []⟩
  | (t, err) :: rest =>
    if err then
      let r := processTickets store rest
      ⟨r.store, r.newCount, r.dupCount, Outcome.failed :: r.outcomes⟩
    else if isDuplicate store t then
      let r := processTickets store rest
      ⟨r.store, r.newCount, r.dupCount + 1, Outcome.duplicate :: r.outcomes⟩
    else
      let r := processTickets (store ++ [mkStored t]) rest
      ⟨r.store, r.newCount + 1, r.dupCount, Outcome.inserted :: r.outcomes⟩

/-- The store step on a ticket list in a run where no per-record error
occurs (the deterministic projection of the loop). -/
def storeStep (store : List StoredTicket) (tickets : List Ticket) : StoreResult :=
  processTickets store (tickets.map (fun t => (t, false)))

/-! ### The standalone fetch path (`src/dist/index.js`) -/

/-- Result of the `fetchAndStoreTickets` loop: table contents so far, the
two counters, and whether an uncaught per-record error aborted the loop
(that error is rethrown from the surrounding `catch`). -/
structure DistResult where
  store : List StoredTicket
  newCount : Nat
  dupCount : Nat
  aborted : Bool
deriving Repr, DecidableEq

/-- The `for (const ticket of tickets)` loop of `fetchAndStoreTickets`
(src/dist/index.js lines 84-126). There is no per-record `try/catch`: an
error while processing one ticket propagates to the outer `catch`, which
logs and rethrows — the remaining tickets are never examined. -/
def distProcessTickets (store : List StoredTicket) (newC dupC : Nat) :
    List (Ticket × Bool) → DistResult
  | [] => ⟨store, newC, dupC, false⟩
  | (t, err) :: rest =>
    if err then
      ⟨store, newC, dupC, true⟩
    else if isDuplicate store t then
      distProcessTickets store newC (dupC + 1) rest
    else
      distProcessTickets (store ++ [mkStored t]) (newC + 1) dupC rest

/-! ### Upstream response shape and validation -/

/-- The GraphQL data envelope: `response.data.data`. -/
structure GraphQLData where
  prices_round_trip : Option (List Ticket)
deriving Repr, DecidableEq

/-- The HTTP body: `response.data`. -/
structure ResponseBody where
  data : Option GraphQLData
deriving Repr, DecidableEq

/-- The axios response object (only its `data` is inspected). -/
structure HttpResponse where
  data : Option ResponseBody
deriving Repr, DecidableEq

/-- The three nested checks of the search handler (src/api/index.js lines
209-223), each throwing an `Error` with its own message. -/
def validateResponse (r : HttpResponse) : Except String (List Ticket) :=
  match r.data with
  | none => Except.error "No data in API response"
  | some body =>
    match body.data with
    | none => Except.error "Invalid API response format: missing data.data"
    | some env =>
      match env.prices_round_trip with
      | none => Except.error "Invalid API response format: missing prices_round_trip"
      | some tickets => Except.ok tickets

/-- The single combined check of `fetchAndStoreTickets` (src/dist/index.js
line 71): `!response.data || !response.data.data ||
!response.data.data.prices_round_trip`. Returns the ticket list when all
three levels are present, `none` otherwise. -/
def distValidate (r : HttpResponse) : Option (List Ticket) :=
  match r.data with
  | none => none
  | some body =>
    match body.data with
    | none => none
    | some env => env.prices_round_trip

/-- Observable outcome of one `fetchAndStoreTickets` run. -/
inductive DistOutcome where
  | invalidFormat
  | noTickets
  | completed (newCount dupCount : Nat)
  | errored
deriving Repr, DecidableEq

/-- Outcome and final store of one `fetchAndStoreTickets` run. -/
structure DistRun where
  outcome : DistOutcome
  store : List StoredTicket
deriving Repr, DecidableEq

/-- `fetchAndStoreTickets` of src/dist/index.js, in a run where no
per-record error occurs, as a function of the upstream response and the
store. A missing level at any of the three nesting depths takes the silent
early-return branch (one combined log message, no error raised); an empty
ticket list takes the second early return; otherwise the store loop runs. -/
def fetchAndStoreTickets (resp : HttpResponse) (store : List StoredTicket) : DistRun :=
  match distValidate resp with
  | none => ⟨DistOutcome.invalidFormat, store⟩
  | some tickets =>
    if tickets.length = 0 then ⟨DistOutcome.noTickets, store⟩
    else
      let r := distProcessTickets store 0 0 (tickets.map (fun t => (t, false)))
      ⟨DistOutcome.completed r.newCount r.dupCount, r.store⟩

/-! ### The search-flights HTTP handler (`src/api/index.js`) -/

/-- JSON body of `POST /api/search-flights`. Every field may be absent; the
`limit` field is carried as its string form (`parseInt` coerces its argument
to a string first). -/
structure SearchRequest where
  origin : Option String
  destination : Option String
  departDateMin : Option String
  departDateMax : Option String
  returnDateMin : Option String
  returnDateMax : Option String
  currency : Option String
  limit : Option String
deriving Repr, DecidableEq

/-- The required-parameter check (src/api/index.js line 133):
`!origin || !destination || ... || !returnDateMax` is the negation of this. -/
def paramsPresent (req : SearchRequest) : Bool :=
  jsTruthy req.origin && jsTruthy req.destination &&
  jsTruthy req.departDateMin && jsTruthy req.departDateMax &&
  jsTruthy req.returnDateMin && jsTruthy req.returnDateMax

/-- Value of a decimal digit character, `none` otherwise. -/
def decDigit (c : Char) : Option Nat :=
  if c.isDigit then some (c.toNat - 48) else none

/-- Value of a hexadecimal digit character, `none` otherwise. -/
def hexDigit (c : Char) : Option Nat :=
  if c.isDigit then some (c.toNat - 48)
  else if 'a' ≤ c ∧ c ≤ 'f' then some (c.toNat - 87)
  else if 'A' ≤ c ∧ c ≤ 'F' then some (c.toNat - 55)
  else none

/-- Accumulate the value of the longest digit run at the head of the list. -/
def parseDigitsAux (dv : Char → Option Nat) (base : Nat) : List Char → Nat → Nat
  | [], acc => acc
  | c :: cs, acc =>
    match dv c with
    | some d => parseDigitsAux dv base cs (acc * base + d)
    | none => acc

/-- Value of the longest digit run at the head of the list, `none` when it
is empty (the NaN case of `parseInt`). -/
def parseRadix (dv : Char → Option Nat) (base : Nat) (cs : List Char) : Option Nat :=
  match cs with
  | [] => none
  | c :: _ =>
    match dv c with
    | none => none
    | some _ => some (parseDigitsAux dv base cs 0)

/-- JavaScript `parseInt(s)` with no radix argument: skip leading
whitespace, optional sign, an `0x`/`0X` prefix selects base 16, then the
longest digit run; `none` models NaN. -/
def jsParseInt (s : String) : Option Int :=
  let cs := s.toList.dropWhile Char.isWhitespace
  let sgn : Int := match cs with
    | '-' :: _ => -1
    | _ => 1
  let cs2 : List Char := match cs with
    | '-' :: rest => rest
    | '+' :: rest => rest
    | _ => cs
  match cs2 with
  | '0' :: 'x' :: rest => (parseRadix hexDigit 16 rest).map (fun n => sgn * (n : Int))
  | '0' :: 'X' :: rest => (parseRadix hexDigit 16 rest).map (fun n => sgn * (n : Int))
  | _ => (parseRadix decDigit 10 cs2).map (fun n => sgn * (n : Int))

/-- JavaScript `x || d` for a number `x` that may be NaN (`none`): NaN and
0 are falsy and fall through to the default. -/
def jsNumOr (x : Option Int) (d : Int) : Int :=
  match x with
  | none => d
  | some v => if v = 0 then d else v

/-- The limit embedded in the query: destructuring default `limit = 5`
for an absent field, then `parseInt(limit) || 5` (line 154). -/
def effectiveLimit (limit : Option String) : Int :=
  match limit with
  | none => 5
  | some s => jsNumOr (jsParseInt s) 5

/-- The currency embedded in the query: destructuring default
`currency = 'cad'`, then `.toLowerCase()` (line 158). -/
def effectiveCurrency (currency : Option String) : String :=
  strToLower (currency.getD "cad")

/-- The GraphQL query template literal of src/api/index.js lines 141-176,
with the six parameters, the computed limit and the computed currency
interpolated. -/
def buildGraphqlQuery (origin destination departDateMin departDateMax
    returnDateMin returnDateMax : String) (limit : Int) (currency : String) : String :=
  "\n    \x7b\n      prices_round_trip(\n        params: \x7b\n          origin: \"" ++
  origin ++
  "\"\n          destination: \"" ++ destination ++
  "\"\n          depart_date_min: \"" ++ departDateMin ++
  "\"\n          depart_date_max: \"" ++ departDateMax ++
  "\"\n          return_date_min: \"" ++ returnDateMin ++
  "\"\n          return_date_max: \"" ++ returnDateMax ++
  "\"\n          no_lowcost: true\n        \x7d\n        paging: \x7b\n          limit: " ++
  toString limit ++
  "\n          offset: 0\n        \x7d\n        sorting: VALUE_ASC\n        currency: \"" ++
  currency ++
  "\"\n      ) \x7b\n        departure_at\n        return_at\n        value\n        trip_duration\n        ticket_link\n        segments \x7b\n          flight_legs \x7b\n            aircraft_code\n            flight_number\n            origin\n            destination\n            departure_at\n            arrival_at\n          \x7d\n        \x7d\n      \x7d\n    \x7d"

/-- The link normalization applied to each ticket before saving and before
echoing (src/api/index.js lines 231-235): a truthy link that does not start
with "http" gets the aviasales search domain prepended. -/
def fixTicketLink (t : Ticket) : Ticket :=
  match t.ticket_link with
  | none => t
  | some l =>
    if !(l == "") && !(strStartsWith l "http") then
      { t with ticket_link := some ("https://www.aviasales.com/search" ++ l) }
    else t

/-- Observable outcome of one `POST /api/search-flights` request:
`badRequest` is the HTTP 400 `{success:false}` reply, `configError` and
`serverError` are the HTTP 500 `{success:false}` replies (the latter via the
outer `catch`), and `ok` is the HTTP 200 reply carrying the message, the
echoed ticket list and the `dbStats` counters. -/
inductive ApiOutcome where
  | badRequest (message : String)
  | configError (message : String)
  | serverError (message : String)
  | ok (message : String) (tickets : List Ticket) (newTickets duplicates : Nat)
deriving Repr, DecidableEq

/-- Outcome of a request together with the query sent upstream (`none`
means no network call was made) and the resulting store contents. -/
structure ApiResult where
  outcome : ApiOutcome
  sentQuery : Option String
  store : List StoredTicket
deriving Repr, DecidableEq

/-- The `POST /api/search-flights` handler of src/api/index.js, in a run
where no per-record store error occurs, as a function of the configured API
token, the request body, the upstream response the network would deliver,
and the store. Order follows the source: parameter validation (400, no
call), query construction, token check (500, no call), the network call,
the three-step response validation (thrown, caught as 500), the link
normalization of the ticket array, the store loop, and the 200 reply
echoing the (normalized) ticket array with the counters.

The query the handler sends is `sentQueryOf req`: the template with the
request's parameters, the computed limit and the computed currency
interpolated. -/
def sentQueryOf (req : SearchRequest) : String :=
  buildGraphqlQuery (req.origin.getD "") (req.destination.getD "")
    (req.departDateMin.getD "") (req.departDateMax.getD "")
    (req.returnDateMin.getD "") (req.returnDateMax.getD "")
    (effectiveLimit req.limit) (effectiveCurrency req.currency)

def handleSearchFlights (apiToken : Option String) (req : SearchRequest)
    (upstream : HttpResponse) (store : List StoredTicket) : ApiResult :=
  if !(paramsPresent req) then
    ⟨ApiOutcome.badRequest "Missing required search parameters", none, store⟩
  else
    let query := sentQueryOf req
    if !(jsTruthy apiToken) then
      ⟨ApiOutcome.configError "API key not configured on server", none, store⟩
    else
      match validateResponse upstream with
      | Except.error msg => ⟨ApiOutcome.serverError msg, some query, store⟩
      | Except.ok rawTickets =>
        let tickets := rawTickets.map fixTicketLink
        let r := storeStep store tickets
        ⟨ApiOutcome.ok ("Found " ++ toString tickets.length ++
            " flights (Saved " ++ toString r.newCount ++ " new tickets to database)")
            tickets r.newCount r.dupCount,
          some query, r.store⟩

/-- The echoed ticket list of an outcome, when the request succeeded. -/
def echoedTickets : ApiOutcome → Option (List Ticket)
  | ApiOutcome.ok _ ts _ _ => some ts
  | _ => none

/-- Limit as the claim words it: `parseInt` of the supplied limit with
fallback to 5 whenever that parse yields NaN or 0, and 5 when the limit is
absent. Claim-side characterization, compared against `effectiveLimit`
(the embedding of line 154 of the handler). -/
def claimLimit (limit : Option String) : Int :=
  match limit with
  | none => 5
  | some s =>
    match jsParseInt s with
    | none => 5
    | some v => if v = 0 then 5 else v

/-- Currency as the claim words it: the supplied currency lowercased,
defaulting to "cad" when absent. Claim-side characterization, compared
against `effectiveCurrency` (the embedding of line 158 of the handler). -/
def claimCurrency (currency : Option String) : String :=
  match currency with
  | none => "cad"
  | some c => strToLower c

/-! ### Sample data for witnesses and counterexamples -/

/-- A concrete outbound flight leg. -/
def legOutbound : FlightLeg :=
  ⟨some "320", some "AC123", some "YUL", some "YVR",
   some "2025-07-25T08:00", some "2025-07-25T11:00"⟩

/-- A concrete return flight leg. -/
def legReturn : FlightLeg :=
  ⟨some "320", some "AC456", some "YVR", some "YUL",
   some "2025-08-07T09:00", some "2025-08-07T17:00"⟩

/-- A concrete round-trip ticket with both segments present. -/
def sampleTicket : Ticket :=
  ⟨"2025-07-25T08:00", "2025-08-07T09:00", 500, 10, some "/MOW123",
   [⟨[legOutbound]⟩, ⟨[legReturn]⟩]⟩

/-- The same flight pair observed at a lower price. -/
def sampleTicketCheaper : Ticket :=
  { sampleTicket with value := 450 }

/-- A ticket whose second segment is absent (one-way-shaped data). -/
def sampleOneWayTicket : Ticket :=
  ⟨"2025-07-25T08:00", "2025-08-07T09:00", 500, 10, some "/MOW123",
   [⟨[legOutbound]⟩]⟩

/-- A concrete request with all six required parameters present. -/
def sampleRequest : SearchRequest :=
  { origin := some "YUL", destination := some "YVR",
    departDateMin := some "2025-07-25", departDateMax := some "2025-07-29",
    returnDateMin := some "2025-08-07", returnDateMax := some "2025-08-11",
    currency := some "CAD", limit := some "5" }

/-- A concrete request missing `origin`. -/
def sampleBadRequest : SearchRequest :=
  { sampleRequest with origin := none }

/-- An upstream response carrying the given ticket list at the expected
nesting depth. -/
def wrapTickets (ts : List Ticket) : HttpResponse :=
  { data := some { data := some { prices_round_trip := some ts } } }

/-! ### Helper lemmas -/

theorem matchesKey_iff (st : StoredTicket) (t : Ticket) :
    matchesKey st t = true ↔
      st.departureAt = t.departure_at ∧ st.returnAt = t.return_at ∧
      st.outboundFlight = outboundFlight t ∧ st.returnFlight = returnFlight t ∧
      st.origin = ticketOrigin t ∧ st.destination = ticketDestination t := by
  simp [matchesKey, Bool.and_eq_true, and_assoc]

theorem mkStored_matches_self (t : Ticket) : matchesKey (mkStored t) t = true := by
  simp [matchesKey, mkStored]

theorem isDuplicate_iff (store : List StoredTicket) (t : Ticket) :
    isDuplicate store t = true ↔ ∃ st ∈ store, matchesKey st t = true := by
  simp [isDuplicate, List.any_eq_true]

theorem isDuplicate_mono {store : List StoredTicket} {t : Ticket}
    (ext : List StoredTicket) (h : isDuplicate store t = true) :
    isDuplicate (store ++ ext) t = true := by
  simp [isDuplicate, List.any_eq_true] at h ⊢
  exact Or.inl h

theorem derived_eq_of_segments_eq {t t2 : Ticket} (h : t2.segments = t.segments) :
    outboundFlight t2 = outboundFlight t ∧ returnFlight t2 = returnFlight t ∧
    ticketOrigin t2 = ticketOrigin t ∧ ticketDestination t2 = ticketDestination t := by
  refine ⟨?_, ?_, ?_, ?_⟩ <;>
    simp [outboundFlight, returnFlight, ticketOrigin, ticketDestination,
      outboundLeg, returnLeg, h]

theorem storeStep_single (store : List StoredTicket) (u : Ticket) :
    storeStep store [u] =
      if isDuplicate store u then ⟨store, 0, 1, [Outcome.duplicate]⟩
      else ⟨store ++ [mkStored u], 1, 0, [Outcome.inserted]⟩ := by
  by_cases h : isDuplicate store u = true <;> simp [storeStep, processTickets, h]

theorem storeStep_dupCount_single (store : List StoredTicket) (u : Ticket) :
    (storeStep store [u]).dupCount = 1 ↔ isDuplicate store u = true := by
  by_cases h : isDuplicate store u = true <;> simp [storeStep, processTickets, h]

theorem processTickets_store_append (store : List StoredTicket) (l : List (Ticket × Bool)) :
    ∃ ext, (processTickets store l).store = store ++ ext := by
  induction l generalizing store with
  | nil => exact ⟨[], by simp [processTickets]⟩
  | cons te rest ih =>
    obtain ⟨t, err⟩ := te
    cases err with
    | true => simpa [processTickets] using ih store
    | false =>
      by_cases hdup : isDuplicate store t = true
      · simpa [processTickets, hdup] using ih store
      · rcases ih (store ++ [mkStored t]) with ⟨ext, hext⟩
        exact ⟨mkStored t :: ext, by simp [processTickets, hdup, hext]⟩

theorem processTickets_key_present :
    ∀ (l : List (Ticket × Bool)) (store : List StoredTicket),
      ∀ te ∈ l, te.2 = false →
        isDuplicate (processTickets store l).store te.1 = true := by
  intro l
  induction l with
  | nil => intro store te h hb; simp at h
  | cons hd rest ih =>
    intro store te hmem hbit
    obtain ⟨t, err⟩ := hd
    cases err with
    | true =>
      rcases List.mem_cons.mp hmem with heq | hmem'
      · rw [heq] at hbit; simp at hbit
      · simpa [processTickets] using ih store te hmem' hbit
    | false =>
      by_cases hdup : isDuplicate store t = true
      · rcases List.mem_cons.mp hmem with heq | hmem'
        · subst heq
          rcases processTickets_store_append store rest with ⟨ext, hext⟩
          simpa [processTickets, hdup, hext] using isDuplicate_mono ext hdup
        · simpa [processTickets, hdup] using ih store te hmem' hbit
      · rcases List.mem_cons.mp hmem with heq | hmem'
        · subst heq
          have h1 : isDuplicate (store ++ [mkStored t]) t = true := by
            simp [isDuplicate, List.any_eq_true]
            exact Or.inr (mkStored_matches_self t)
          rcases processTickets_store_append (store ++ [mkStored t]) rest with ⟨ext, hext⟩
          simpa [processTickets, hdup, hext] using isDuplicate_mono ext h1
        · simpa [processTickets, hdup] using ih (store ++ [mkStored t]) te hmem' hbit

theorem processTickets_all_dup :
    ∀ (l : List (Ticket × Bool)) (store : List StoredTicket),
      (∀ te ∈ l, te.2 = false) → (∀ te ∈ l, isDuplicate store te.1 = true) →
      processTickets store l =
        ⟨store, 0, l.length, List.replicate l.length Outcome.duplicate⟩ := by
  intro l
  induction l with
  | nil => intro store _ _; simp [processTickets]
  | cons hd rest ih =>
    intro store hb hd2
    obtain ⟨t, err⟩ := hd
    have hbf : err = false := hb (t, err) (List.mem_cons_self _ _)
    subst hbf
    have hdt : isDuplicate store t = true := hd2 (t, false) (List.mem_cons_self _ _)
    have hrest := ih store (fun te h => hb te (List.mem_cons_of_mem _ h))
      (fun te h => hd2 te (List.mem_cons_of_mem _ h))
    simp [processTickets, hdt, hrest, List.replicate_succ]

theorem processTickets_outcomes_length :
    ∀ (l : List (Ticket × Bool)) (store : List StoredTicket),
      (processTickets store l).outcomes.length = l.length := by
  intro l
  induction l with
  | nil => intro store; simp [processTickets]
  | cons hd rest ih =>
    intro store
    obtain ⟨t, err⟩ := hd
    cases err with
    | true => simp [processTickets, ih]
    | false =>
      by_cases hdup : isDuplicate store t = true <;> simp [processTickets, hdup, ih]

theorem processTickets_counts_sum :
    ∀ (l : List (Ticket × Bool)) (store : List StoredTicket),
      (processTickets store l).newCount + (processTickets store l).dupCount +
        (processTickets store l).outcomes.count Outcome.failed = l.length := by
  intro l
  induction l with
  | nil => intro store; simp [processTickets]
  | cons hd rest ih =>
    intro store
    obtain ⟨t, err⟩ := hd
    cases err with
    | true =>
      have := ih store
      simp [processTickets, List.count_cons]
      omega
    | false =>
      by_cases hdup : isDuplicate store t = true
      · have := ih store
        simp [processTickets, hdup, List.count_cons]
        omega
      · have := ih (store ++ [mkStored t])
        simp [processTickets, hdup, List.count_cons]
        omega

theorem processTickets_count_failed_zero :
    ∀ (l : List (Ticket × Bool)) (store : List StoredTicket),
      (∀ te ∈ l, te.2 = false) →
      (processTickets store l).outcomes.count Outcome.failed = 0 := by
  intro l
  induction l with
  | nil => intro store _; simp [processTickets]
  | cons hd rest ih =>
    intro store hb
    obtain ⟨t, err⟩ := hd
    have hbf : err = false := hb (t, err) (List.mem_cons_self _ _)
    subst hbf
    have hrest := fun te h => hb te (List.mem_cons_of_mem _ h)
    by_cases hdup : isDuplicate store t = true <;>
      simp [processTickets, hdup, List.count_cons, ih _ hrest]

theorem processTickets_newCount_mono :
    ∀ (l l2 : List (Ticket × Bool)) (store : List StoredTicket),
      (processTickets store l).newCount ≤ (processTickets store (l ++ l2)).newCount := by
  intro l
  induction l with
  | nil => intro l2 store; simp [processTickets]
  | cons hd rest ih =>
    intro l2 store
    obtain ⟨t, err⟩ := hd
    cases err with
    | true => simpa [processTickets] using ih l2 store
    | false =>
      by_cases hdup : isDuplicate store t = true
      · simpa [processTickets, hdup] using ih l2 store
      · simpa [processTickets, hdup] using
          Nat.add_le_add_right (ih l2 (store ++ [mkStored t])) 1

theorem processTickets_dupCount_mono :
    ∀ (l l2 : List (Ticket × Bool)) (store : List StoredTicket),
      (processTickets store l).dupCount ≤ (processTickets store (l ++ l2)).dupCount := by
  intro l
  induction l with
  | nil => intro l2 store; simp [processTickets]
  | cons hd rest ih =>
    intro l2 store
    obtain ⟨t, err⟩ := hd
    cases err with
    | true => simpa [processTickets] using ih l2 store
    | false =>
      by_cases hdup : isDuplicate store t = true
      · simpa [processTickets, hdup] using
          Nat.add_le_add_right (ih l2 store) 1
      · simpa [processTickets, hdup] using ih l2 (store ++ [mkStored t])

theorem unknown_take_two : strTake "Unknown" 2 = "Un" := by decide

theorem handleSearchFlights_badRequest (tok : Option String) (req : SearchRequest)
    (resp : HttpResponse) (store : List StoredTicket)
    (hp : paramsPresent req = false) :
    handleSearchFlights tok req resp store =
      ⟨ApiOutcome.badRequest "Missing required search parameters", none, store⟩ := by
  simp only [handleSearchFlights, hp]
  rfl

theorem handleSearchFlights_serverError (tok : Option String) (req : SearchRequest)
    (resp : HttpResponse) (store : List StoredTicket) (msg : String)
    (hp : paramsPresent req = true) (ht : jsTruthy tok = true)
    (hv : validateResponse resp = Except.error msg) :
    handleSearchFlights tok req resp store =
      ⟨ApiOutcome.serverError msg, some (sentQueryOf req), store⟩ := by
  simp only [handleSearchFlights, hp, ht, hv]
  rfl

theorem handleSearchFlights_ok (tok : Option String) (req : SearchRequest)
    (resp : HttpResponse) (store : List StoredTicket) (raw : List Ticket)
    (hp : paramsPresent req = true) (ht : jsTruthy tok = true)
    (hv : validateResponse resp = Except.ok raw) :
    handleSearchFlights tok req resp store =
      ⟨ApiOutcome.ok ("Found " ++ toString (raw.map fixTicketLink).length ++
          " flights (Saved " ++
          toString (storeStep store (raw.map fixTicketLink)).newCount ++
          " new tickets to database)")
        (raw.map fixTicketLink)
        (storeStep store (raw.map fixTicketLink)).newCount
        (storeStep store (raw.map fixTicketLink)).dupCount,
       some (sentQueryOf req), (storeStep store (raw.map fixTicketLink)).store⟩ := by
  simp only [handleSearchFlights, hp, ht, hv]
  rfl

/-! ### Claim theorems -/

/-- C1: the store writer counts an incoming ticket as a duplicate iff some
existing record agrees with it on all six of departure timestamp, return
timestamp, outbound flight number, return flight number, origin and
destination (price and link excluded); and of two records identical except
for price, only the first is persisted, the second is counted a duplicate
and not written. -/
theorem C1_duplicate_key_excludes_price (store : List StoredTicket) (t t2 : Ticket)
    (honly : t2.departure_at = t.departure_at ∧ t2.return_at = t.return_at ∧
             t2.trip_duration = t.trip_duration ∧ t2.ticket_link = t.ticket_link ∧
             t2.segments = t.segments ∧ t2.value ≠ t.value)
    (hnew : isDuplicate store t = false) :
    (∀ u : Ticket, (storeStep store [u]).dupCount = 1 ↔
       ∃ st ∈ store, st.departureAt = u.departure_at ∧ st.returnAt = u.return_at ∧
         st.outboundFlight = outboundFlight u ∧ st.returnFlight = returnFlight u ∧
         st.origin = ticketOrigin u ∧ st.destination = ticketDestination u) ∧
    storeStep store [t, t2] =
      ⟨store ++ [mkStored t], 1, 1, [Outcome.inserted, Outcome.duplicate]⟩ := by
  obtain ⟨h1, h2, h3, h4, h5, h6⟩ := honly
  constructor
  · intro u
    rw [storeStep_dupCount_single, isDuplicate_iff]
    exact exists_congr fun st => and_congr_right fun _ => matchesKey_iff st u
  · have hkey := derived_eq_of_segments_eq h5
    have hm : matchesKey (mkStored t) t2 = true := by
      rw [matchesKey_iff]
      simp [mkStored, h1, h2, hkey.1, hkey.2.1, hkey.2.2.1, hkey.2.2.2]
    have hdup2 : isDuplicate (store ++ [mkStored t]) t2 = true := by
      simp [isDuplicate, List.any_eq_true]
      exact Or.inr hm
    simp [storeStep, processTickets, hnew, hdup2]

/-- C1 witness: on an empty store, of two concrete tickets identical except
for price, only the first is persisted. -/
theorem C1_witness :
    storeStep [] [sampleTicket, sampleTicketCheaper] =
      ⟨[mkStored sampleTicket], 1, 1, [Outcome.inserted, Outcome.duplicate]⟩ :=
  (C1_duplicate_key_excludes_price [] sampleTicket sampleTicketCheaper
    (by refine ⟨rfl, rfl, rfl, rfl, rfl, ?_⟩; decide) rfl).2

/-- C3: the store step is idempotent — re-running it with the identical
ticket list against the store produced by the first run yields zero new
records and a duplicate count equal to the list length. -/
theorem C3_store_step_idempotent (store : List StoredTicket) (tickets : List Ticket) :
    (storeStep (storeStep store tickets).store tickets).newCount = 0 ∧
    (storeStep (storeStep store tickets).store tickets).dupCount = tickets.length := by
  have hbits : ∀ te ∈ tickets.map (fun t => (t, false)), te.2 = false := by
    intro te hte
    rcases List.mem_map.mp hte with ⟨t, _, rfl⟩
    rfl
  have hall : ∀ te ∈ tickets.map (fun t => (t, false)),
      isDuplicate (storeStep store tickets).store te.1 = true := by
    intro te hte
    exact processTickets_key_present _ store te hte (hbits te hte)
  have h2 := processTickets_all_dup _ (storeStep store tickets).store hbits hall
  constructor
  · show (processTickets (storeStep store tickets).store
        (tickets.map (fun t => (t, false)))).newCount = 0
    rw [h2]
  · show (processTickets (storeStep store tickets).store
        (tickets.map (fun t => (t, false)))).dupCount = tickets.length
    rw [h2]
    simp

/-- C4 counterexample: in `fetchAndStoreTickets` (src/dist/index.js) there
is no per-record catch — a failure on the first record aborts the loop, and
the second record, which a continuing run would have inserted, is never
written. -/
theorem C4_counterexample :
    distProcessTickets [] 0 0 [(sampleTicketCheaper, true), (sampleTicket, false)] =
      ⟨[], 0, 0, true⟩ ∧
    distProcessTickets [] 0 0 [(sampleTicket, false)] =
      ⟨[mkStored sampleTicket], 1, 0, false⟩ :=
  ⟨rfl, rfl⟩

/-- C4 amended: in the HTTP search handler's store loop a per-record
failure is caught, leaves store and counters unchanged for that record, and
the batch continues (every record still receives an outcome); in
`fetchAndStoreTickets` a failing record instead aborts the loop, leaving
the remaining records unprocessed. -/
theorem C4_amended_per_record_failure (store : List StoredTicket)
    (l : List (Ticket × Bool)) (t : Ticket) (n d : Nat) :
    (processTickets store l).outcomes.length = l.length ∧
    processTickets store ((t, true) :: l) =
      ⟨(processTickets store l).store, (processTickets store l).newCount,
       (processTickets store l).dupCount,
       Outcome.failed :: (processTickets store l).outcomes⟩ ∧
    distProcessTickets store n d ((t, true) :: l) = ⟨store, n, d, true⟩ :=
  ⟨processTickets_outcomes_length l store, rfl, rfl⟩

/-- C9: every processed record accounts for exactly one of the two counters
or the per-record failure path, so newCount + dupCount never exceeds the
input length, with equality when no record fails; both counters start at
zero and never decrease as further records are processed. -/
theorem C9_counter_invariant (store : List StoredTicket)
    (l l2 : List (Ticket × Bool)) :
    processTickets store [] = ⟨store, 0, 0, []⟩ ∧
    (processTickets store l).newCount + (processTickets store l).dupCount +
      (processTickets store l).outcomes.count Outcome.failed = l.length ∧
    (processTickets store l).newCount + (processTickets store l).dupCount ≤ l.length ∧
    ((∀ te ∈ l, te.2 = false) →
      (processTickets store l).newCount + (processTickets store l).dupCount = l.length) ∧
    (processTickets store l).newCount ≤ (processTickets store (l ++ l2)).newCount ∧
    (processTickets store l).dupCount ≤ (processTickets store (l ++ l2)).dupCount := by
  refine ⟨rfl, processTickets_counts_sum l store, ?_, ?_,
    processTickets_newCount_mono l l2 store, processTickets_dupCount_mono l l2 store⟩
  · have := processTickets_counts_sum l store
    omega
  · intro hb
    have hsum := processTickets_counts_sum l store
    have hzero := processTickets_count_failed_zero l store hb
    omega

/-- C9 witness: a concrete two-ticket failure-free run accounts for both
records in the two counters. -/
theorem C9_witness :
    (processTickets [] [(sampleTicket, false), (sampleTicketCheaper, false)]).newCount +
      (processTickets [] [(sampleTicket, false), (sampleTicketCheaper, false)]).dupCount = 2 :=
  (C9_counter_invariant [] [(sampleTicket, false), (sampleTicketCheaper, false)] []).2.2.2.1
    (by decide)

/-- C2 counterexample: the standalone client (`fetchAndStoreTickets` of
src/dist/index.js, cited by the claim) does not fail on a malformed
response — all three missing levels take the same silent early-return
branch, with one indistinguishable outcome and no error raised. -/
theorem C2_counterexample :
    fetchAndStoreTickets { data := none } [] =
      ⟨DistOutcome.invalidFormat, []⟩ ∧
    fetchAndStoreTickets { data := some { data := none } } [] =
      ⟨DistOutcome.invalidFormat, []⟩ ∧
    fetchAndStoreTickets { data := some { data := some { prices_round_trip := none } } } [] =
      ⟨DistOutcome.invalidFormat, []⟩ ∧
    DistOutcome.invalidFormat ≠ DistOutcome.errored :=
  ⟨rfl, rfl, rfl, by decide⟩

/-- C2 amended: in the HTTP search handler each of the three missing
nesting levels raises an error with its own distinct message naming the
missing level, surfaced as a 500 reply, and the store is not written; in
`fetchAndStoreTickets`, any missing level causes a silent early return with
a single combined outcome not distinguishing the level, likewise with no
store write. -/
theorem C2_amended_response_validation (tok : Option String) (req : SearchRequest)
    (resp : HttpResponse) (store : List StoredTicket)
    (body : ResponseBody) (env : GraphQLData)
    (hp : paramsPresent req = true) (ht : jsTruthy tok = true) :
    (resp.data = none →
      (handleSearchFlights tok req resp store).outcome =
          ApiOutcome.serverError "No data in API response" ∧
        (handleSearchFlights tok req resp store).store = store) ∧
    (resp.data = some body → body.data = none →
      (handleSearchFlights tok req resp store).outcome =
          ApiOutcome.serverError "Invalid API response format: missing data.data" ∧
        (handleSearchFlights tok req resp store).store = store) ∧
    (resp.data = some body → body.data = some env → env.prices_round_trip = none →
      (handleSearchFlights tok req resp store).outcome =
          ApiOutcome.serverError "Invalid API response format: missing prices_round_trip" ∧
        (handleSearchFlights tok req resp store).store = store) ∧
    ("No data in API response" ≠ "Invalid API response format: missing data.data" ∧
     "No data in API response" ≠ "Invalid API response format: missing prices_round_trip" ∧
     ("Invalid API response format: missing data.data" : String) ≠
       "Invalid API response format: missing prices_round_trip") ∧
    (distValidate resp = none →
      fetchAndStoreTickets resp store = ⟨DistOutcome.invalidFormat, store⟩) := by
  refine ⟨?_, ?_, ?_, ⟨by decide, by decide, by decide⟩, ?_⟩
  · intro h
    have hv : validateResponse resp = Except.error "No data in API response" := by
      simp [validateResponse, h]
    constructor <;> rw [handleSearchFlights_serverError tok req resp store _ hp ht hv]
  · intro h h2
    have hv : validateResponse resp =
        Except.error "Invalid API response format: missing data.data" := by
      simp [validateResponse, h, h2]
    constructor <;> rw [handleSearchFlights_serverError tok req resp store _ hp ht hv]
  · intro h h2 h3
    have hv : validateResponse resp =
        Except.error "Invalid API response format: missing prices_round_trip" := by
      simp [validateResponse, h, h2, h3]
    constructor <;> rw [handleSearchFlights_serverError tok req resp store _ hp ht hv]
  · intro h
    simp [fetchAndStoreTickets, h]

/-- C2 witness: a concrete request against a response with no body fails
with the message naming the first level. -/
theorem C2_witness :
    (handleSearchFlights (some "token") sampleRequest { data := none } []).outcome =
      ApiOutcome.serverError "No data in API response" :=
  ((C2_amended_response_validation (some "token") sampleRequest { data := none } []
      { data := none } { prices_round_trip := none } (by decide) (by decide)).1 rfl).1

/-- C5: a search request missing any of the six required parameters is
answered with the 400 bad-request reply, no query is sent upstream, and the
store is untouched. -/
theorem C5_missing_params_400 (tok : Option String) (req : SearchRequest)
    (resp : HttpResponse) (store : List StoredTicket)
    (h : req.origin = none ∨ req.destination = none ∨ req.departDateMin = none ∨
         req.departDateMax = none ∨ req.returnDateMin = none ∨ req.returnDateMax = none) :
    handleSearchFlights tok req resp store =
      ⟨ApiOutcome.badRequest "Missing required search parameters", none, store⟩ := by
  have hp : paramsPresent req = false := by
    rcases h with h | h | h | h | h | h <;> simp [paramsPresent, jsTruthy, h]
  exact handleSearchFlights_badRequest tok req resp store hp

/-- C5 witness: a concrete request with `origin` absent yields the 400
reply with no upstream query. -/
theorem C5_witness :
    handleSearchFlights (some "token") sampleBadRequest { data := none } [] =
      ⟨ApiOutcome.badRequest "Missing required search parameters", none, []⟩ :=
  C5_missing_params_400 (some "token") sampleBadRequest { data := none } [] (Or.inl rfl)

/-- C6: for a ticket whose second segment is absent the writer is total:
the return flight number degrades to "Unknown" and the return airline code
to "Un", and when no existing record matches, the record is still persisted
with those placeholder values. -/
theorem C6_missing_second_segment (store : List StoredTicket) (t : Ticket)
    (hseg : t.segments[1]? = none) :
    returnFlight t = "Unknown" ∧ returnAirline t = "Un" ∧
    (mkStored t).returnFlight = "Unknown" ∧ (mkStored t).returnAirline = "Un" ∧
    (isDuplicate store t = false →
      storeStep store [t] = ⟨store ++ [mkStored t], 1, 0, [Outcome.inserted]⟩) := by
  have h1 : returnFlight t = "Unknown" := by
    simp [returnFlight, returnLeg, hseg, jsStrOr]
  have h2 : returnAirline t = "Un" := by
    show strTake (returnFlight t) 2 = "Un"
    rw [h1, unknown_take_two]
  refine ⟨h1, h2, h1, h2, ?_⟩
  intro hdup
  simp [storeStep, processTickets, hdup]

/-- C6 witness: a concrete one-segment ticket gets the placeholder return
fields and is inserted into an empty store. -/
theorem C6_witness :
    returnFlight sampleOneWayTicket = "Unknown" ∧
    returnAirline sampleOneWayTicket = "Un" ∧
    storeStep [] [sampleOneWayTicket] =
      ⟨[mkStored sampleOneWayTicket], 1, 0, [Outcome.inserted]⟩ :=
  ⟨(C6_missing_second_segment [] sampleOneWayTicket rfl).1,
   (C6_missing_second_segment [] sampleOneWayTicket rfl).2.1,
   (C6_missing_second_segment [] sampleOneWayTicket rfl).2.2.2.2 rfl⟩

/-- C7: the stored airline codes are the first two characters of the
corresponding stored flight number; a missing flight number is normalized
to "Unknown" (airline "Un"); and the duplicate-key comparison is made
against exactly these normalized flight-number strings. -/
theorem C7_airline_codes (t : Ticket) (st : StoredTicket) :
    (mkStored t).outboundAirline = strTake (mkStored t).outboundFlight 2 ∧
    (mkStored t).returnAirline = strTake (mkStored t).returnFlight 2 ∧
    ((outboundLeg t).bind FlightLeg.flight_number = none →
      (mkStored t).outboundFlight = "Unknown" ∧ (mkStored t).outboundAirline = "Un") ∧
    ((returnLeg t).bind FlightLeg.flight_number = none →
      (mkStored t).returnFlight = "Unknown" ∧ (mkStored t).returnAirline = "Un") ∧
    (matchesKey st t = true →
      st.outboundFlight = outboundFlight t ∧ st.returnFlight = returnFlight t) := by
  refine ⟨rfl, rfl, ?_, ?_, ?_⟩
  · intro h
    have h1 : outboundFlight t = "Unknown" := by
      simp [outboundFlight, h, jsStrOr]
    refine ⟨h1, ?_⟩
    show strTake (outboundFlight t) 2 = "Un"
    rw [h1, unknown_take_two]
  · intro h
    have h1 : returnFlight t = "Unknown" := by
      simp [returnFlight, h, jsStrOr]
    refine ⟨h1, ?_⟩
    show strTake (returnFlight t) 2 = "Un"
    rw [h1, unknown_take_two]
  · intro hm
    have h := (matchesKey_iff st t).mp hm
    exact ⟨h.2.2.1, h.2.2.2.1⟩

/-- C7 witness: the concrete one-segment ticket has a missing return flight
number, which is normalized to "Unknown" with airline "Un" in the stored
record. -/
theorem C7_witness :
    (mkStored sampleOneWayTicket).returnFlight = "Unknown" ∧
    (mkStored sampleOneWayTicket).returnAirline = "Un" :=
  (C7_airline_codes sampleOneWayTicket (mkStored sampleOneWayTicket)).2.2.2.1 rfl

/-- C8 counterexample: the handler echoes the ticket list only after the
in-place link rewrite — a ticket whose link does not start with "http" is
echoed with the aviasales domain prepended, so the echoed list is not the
raw upstream list. -/
theorem C8_counterexample :
    echoedTickets (handleSearchFlights (some "token") sampleRequest
        (wrapTickets [sampleTicket]) []).outcome = some [fixTicketLink sampleTicket] ∧
    fixTicketLink sampleTicket ≠ sampleTicket ∧
    (fixTicketLink sampleTicket).ticket_link =
      some "https://www.aviasales.com/search/MOW123" :=
  ⟨rfl, by decide, by decide⟩

/-- C8 amended: on a successful request the handler echoes the upstream
ticket list after per-ticket link normalization (a truthy link not starting
with "http" gains the aviasales search domain), together with the
newTickets/duplicates counts, and the echoed list does not depend on the
store contents. -/
theorem C8_amended_echo (tok : Option String) (req : SearchRequest)
    (resp : HttpResponse) (store : List StoredTicket) (raw : List Ticket)
    (hp : paramsPresent req = true) (ht : jsTruthy tok = true)
    (hv : validateResponse resp = Except.ok raw) :
    echoedTickets (handleSearchFlights tok req resp store).outcome =
      some (raw.map fixTicketLink) ∧
    (handleSearchFlights tok req resp store).outcome =
      ApiOutcome.ok ("Found " ++ toString (raw.map fixTicketLink).length ++
          " flights (Saved " ++
          toString (storeStep store (raw.map fixTicketLink)).newCount ++
          " new tickets to database)")
        (raw.map fixTicketLink)
        (storeStep store (raw.map fixTicketLink)).newCount
        (storeStep store (raw.map fixTicketLink)).dupCount ∧
    (∀ store2 : List StoredTicket,
      echoedTickets (handleSearchFlights tok req resp store2).outcome =
        some (raw.map fixTicketLink)) := by
  refine ⟨?_, ?_, ?_⟩
  · rw [handleSearchFlights_ok tok req resp store raw hp ht hv]
    rfl
  · rw [handleSearchFlights_ok tok req resp store raw hp ht hv]
  · intro store2
    rw [handleSearchFlights_ok tok req resp store2 raw hp ht hv]
    rfl

/-- C8 witness: a concrete successful request echoes the link-normalized
ticket list. -/
theorem C8_witness :
    echoedTickets (handleSearchFlights (some "token") sampleRequest
        (wrapTickets [sampleTicket, sampleOneWayTicket]) []).outcome =
      some ([sampleTicket, sampleOneWayTicket].map fixTicketLink) :=
  (C8_amended_echo (some "token") sampleRequest
    (wrapTickets [sampleTicket, sampleOneWayTicket]) []
    [sampleTicket, sampleOneWayTicket] (by decide) (by decide) rfl).1

/-- C10: the limit embedded in the sent GraphQL query is `parseInt` of the
supplied limit with fallback to 5 whenever the parse yields NaN or 0 (a
non-numeric or zero limit becomes 5, and an absent limit defaults to 5),
and the embedded currency is the supplied currency lowercased, defaulting
to "cad" when absent. -/
theorem C10_limit_currency (tok : Option String) (req : SearchRequest)
    (resp : HttpResponse) (store : List StoredTicket)
    (hp : paramsPresent req = true) (ht : jsTruthy tok = true) :
    (handleSearchFlights tok req resp store).sentQuery =
      some (buildGraphqlQuery (req.origin.getD "") (req.destination.getD "")
        (req.departDateMin.getD "") (req.departDateMax.getD "")
        (req.returnDateMin.getD "") (req.returnDateMax.getD "")
        (claimLimit req.limit) (claimCurrency req.currency)) ∧
    claimLimit none = 5 ∧ claimLimit (some "abc") = 5 ∧ claimLimit (some "0") = 5 ∧
    claimLimit (some "7") = 7 ∧
    claimCurrency none = "cad" ∧ claimCurrency (some "USD") = "usd" := by
  have hl : ∀ o, effectiveLimit o = claimLimit o := by
    intro o
    cases o with
    | none => rfl
    | some s =>
      cases h : jsParseInt s <;> simp [effectiveLimit, claimLimit, jsNumOr, h]
  have hc : ∀ o, effectiveCurrency o = claimCurrency o := by
    intro o
    cases o with
    | none => rfl
    | some c => rfl
  refine ⟨?_, rfl, by decide, by decide, by decide, rfl, by decide⟩
  rcases hval : validateResponse resp with m | raw
  · rw [handleSearchFlights_serverError tok req resp store m hp ht hval]
    show some (sentQueryOf req) = _
    simp only [sentQueryOf, hl, hc]
  · rw [handleSearchFlights_ok tok req resp store raw hp ht hval]
    show some (sentQueryOf req) = _
    simp only [sentQueryOf, hl, hc]

/-- C10 witness: a concrete request with a non-numeric limit and an
upper-case currency sends the query with limit 5 and currency "usd". -/
theorem C10_witness :
    (handleSearchFlights (some "token")
        { sampleRequest with currency := some "USD", limit := some "abc" }
        { data := none } []).sentQuery =
      some (buildGraphqlQuery "YUL" "YVR" "2025-07-25" "2025-07-29"
        "2025-08-07" "2025-08-11" 5 "usd") := by
  have h := (C10_limit_currency (some "token")
      { sampleRequest with currency := some "USD", limit := some "abc" }
      { data := none } [] (by decide) (by decide)).1
  rw [h]
  rfl

end AviasalesScraper
